import Mathlib

/-!
Verification of the orchestration state machine and the event-stream
translator of the agentic-researcher-api repository.

The embedding follows `src/agent/workflow.py` (the `ResearchAgent` class),
`src/agent/state.py` (`AgentState`), `src/agent/calls_schema.py`
(`DecisionMakingOutput`, `JudgeOutput`) and
`src/services/core_api_service.py` (`CoreAPIWrapper`).

Model invocations and capability invocations are external collaborators:
they are passed in as oracle functions, so a run of the graph is a pure
function of the initial state and the oracle.
-/

namespace Researcher

/-- A model-issued tool call: `{identifier, capability name, argument payload}`
(the `tool_call` dicts read by `ResearchAgent.tools_node`).  The argument
payload is kept abstract as its serialized form. -/
structure ToolCall where
  id : String
  name : String
  args : String
deriving DecidableEq, Repr

/-- The message variant type threaded through the conversation state:
`system`, `human`, `ai` (which may carry tool calls) and `tool` (tagged with
the originating call identifier and capability name), as in
`langchain_core.messages`. -/
inductive Message where
  | system (content : String)
  | human (content : String)
  | ai (content : String) (tool_calls : List ToolCall)
  | tool (content : String) (name : String) (tool_call_id : String)
deriving DecidableEq, Repr

/-- `AgentState` from `src/agent/state.py`: the state of the agent during the
paper research process.  `messages` uses the `add_messages` reducer, which
appends newly returned messages (identifier-based replacement never fires in
this workflow because every emitted message is fresh). -/
structure AgentState where
  requires_research : Bool
  num_feedback_requests : Nat
  is_good_answer : Bool
  messages : List Message
deriving DecidableEq, Repr

/-- A partial state update as returned by a LangGraph node: each scalar key is
either absent (`none`, the key is not in the returned dict) or overwritten;
returned messages are appended by the `add_messages` reducer. -/
structure StateUpdate where
  requires_research : Option Bool
  num_feedback_requests : Option Nat
  is_good_answer : Option Bool
  messages : List Message
deriving DecidableEq, Repr

/-- Applying a node's returned update to the current state: scalar keys
present in the dict overwrite, `messages` entries are appended. -/
def applyUpdate (s : AgentState) (u : StateUpdate) : AgentState :=
  { requires_research := u.requires_research.getD s.requires_research
    num_feedback_requests := u.num_feedback_requests.getD s.num_feedback_requests
    is_good_answer := u.is_good_answer.getD s.is_good_answer
    messages := s.messages ++ u.messages }

/-- `DecisionMakingOutput` from `src/agent/calls_schema.py`. -/
structure DecisionMakingOutput where
  requires_research : Bool
  answer : Option String
deriving DecidableEq, Repr

/-- `JudgeOutput` from `src/agent/calls_schema.py`. -/
structure JudgeOutput where
  is_good_answer : Bool
  feedback : Option String
deriving DecidableEq, Repr

/-- Python truthiness of an optional string: `None` and the empty string are
falsy (the workflow guards message appends with `if response.answer:` and
`if response.feedback:`). -/
def pyTruthy : Option String → Bool
  | none => false
  | some s => !(s == "")

/-- `ResearchAgent.decision_making_node`: stores the structured decision's
`requires_research` flag and, when the optional `answer` is truthy, appends it
as an `ai` message.  The model response is the oracle argument `resp`. -/
def decision_making_node (resp : DecisionMakingOutput) : StateUpdate :=
  { requires_research := some resp.requires_research
    num_feedback_requests := none
    is_good_answer := none
    messages := if pyTruthy resp.answer then [Message.ai (resp.answer.getD "") []] else [] }

/-- `ResearchAgent.router`: directs the query to the appropriate branch,
returning the edge label consumed by the conditional-edge mapping
`{"planning": "planning", "end": END}`. -/
def router (s : AgentState) : String :=
  if s.requires_research then "planning" else "end"

/-- `ResearchAgent.planning_node`: appends the model's free-form plan response
(the oracle argument `resp`) as a message. -/
def planning_node (resp : Message) : StateUpdate :=
  { requires_research := none
    num_feedback_requests := none
    is_good_answer := none
    messages := [resp] }

/-- The tool calls of the last message in a history, as read by
`state["messages"][-1].tool_calls`: only `ai` messages carry tool calls (the
graph only reads this after an `ai` message was appended). -/
def lastMessageToolCalls (msgs : List Message) : List ToolCall :=
  match msgs.getLast? with
  | some (Message.ai _ tcs) => tcs
  | _ => []

/-- `ResearchAgent.tools_node`: for each tool call of the last message, in
order, invokes the named capability on its argument payload and appends a
`tool` message tagged with the call's capability name and identifier.
`invoke name args` stands for
`json.dumps(self.tools_dict[name].invoke(args))`, the serialized result of
the capability. -/
def tools_node (invoke : String → String → String) (s : AgentState) : StateUpdate :=
  { requires_research := none
    num_feedback_requests := none
    is_good_answer := none
    messages := (lastMessageToolCalls s.messages).map fun tc =>
      Message.tool (invoke tc.name tc.args) tc.name tc.id }

/-- `ResearchAgent.agent_node`: appends the tool-bound model's response — an
`ai` message with content `resp.1` carrying the requested tool calls
`resp.2` — to the history. -/
def agent_node (resp : String × List ToolCall) : StateUpdate :=
  { requires_research := none
    num_feedback_requests := none
    is_good_answer := none
    messages := [Message.ai resp.1 resp.2] }

/-- `ResearchAgent.should_continue`: `"continue"` when the latest message
carries one or more tool calls, `"end"` otherwise (the conditional-edge
mapping sends `"continue"` to the tools node and `"end"` to the judge). -/
def should_continue (s : AgentState) : String :=
  if (lastMessageToolCalls s.messages).isEmpty then "end" else "continue"

/-- `ResearchAgent.judge_node`: ends execution when the model already failed
to provide a good answer twice (`num_feedback_requests >= 2` short-circuits
to `{"is_good_answer": True}` before the model is consulted); otherwise
stores the structured verdict, increments `num_feedback_requests`, and
appends truthy feedback as an `ai` message.  `resp` is the model's verdict,
unused on the short-circuit path. -/
def judge_node (resp : JudgeOutput) (s : AgentState) : StateUpdate :=
  if 2 ≤ s.num_feedback_requests then
    { requires_research := none
      num_feedback_requests := none
      is_good_answer := some true
      messages := [] }
  else
    { requires_research := none
      num_feedback_requests := some (s.num_feedback_requests + 1)
      is_good_answer := some resp.is_good_answer
      messages := if pyTruthy resp.feedback then [Message.ai ((resp.feedback).getD "") []] else [] }

/-- `ResearchAgent.final_answer_router`: ends the workflow on a good answer,
otherwise loops back to planning. -/
def final_answer_router (s : AgentState) : String :=
  if s.is_good_answer then "end" else "planning"

/-- The nodes of the workflow graph built by `ResearchAgent._build_workflow`,
plus the terminal `END` vertex. -/
inductive Node where
  | decision_making
  | planning
  | tools
  | agent
  | judge
  | done
deriving DecidableEq, Repr

/-- Observable external effects of one graph step: a model invocation made by
a node, or a capability invocation made by the tools node. -/
inductive AgentEvent where
  | modelCall (node : Node)
  | toolInvoke (name : String)
deriving DecidableEq, Repr

/-- The external collaborators of one run: the model variants bound in
`ResearchAgent.__init__` (decision, planning, acting and judging
invocations, each a function of the message history) and the capability
registry's `invoke`. -/
structure Oracle where
  decide : List Message → DecisionMakingOutput
  plan : List Message → Message
  act : List Message → String × List ToolCall
  judge : List Message → JudgeOutput
  invoke : String → String → String

/-- A configuration of a run: the node about to execute and the current
state. -/
def Config := Node × AgentState

/-- One step of the compiled graph from `ResearchAgent._build_workflow`:
execute the node, apply its returned update, follow the (conditional) edge,
and record the step's external effects.  The judge's short-circuit path
(`num_feedback_requests >= 2`) returns before the model is consulted, so it
records no model call. -/
def stepConfig (o : Oracle) : Config → Config × List AgentEvent
  | (Node.decision_making, s) =>
    let s2 := applyUpdate s (decision_making_node (o.decide s.messages))
    ((if router s2 == "planning" then Node.planning else Node.done, s2),
      [AgentEvent.modelCall Node.decision_making])
  | (Node.planning, s) =>
    let s2 := applyUpdate s (planning_node (o.plan s.messages))
    ((Node.agent, s2), [AgentEvent.modelCall Node.planning])
  | (Node.agent, s) =>
    let s2 := applyUpdate s (agent_node (o.act s.messages))
    ((if should_continue s2 == "continue" then Node.tools else Node.judge, s2),
      [AgentEvent.modelCall Node.agent])
  | (Node.tools, s) =>
    let s2 := applyUpdate s (tools_node o.invoke s)
    ((Node.agent, s2),
      (lastMessageToolCalls s.messages).map fun tc => AgentEvent.toolInvoke tc.name)
  | (Node.judge, s) =>
    let s2 := applyUpdate s (judge_node (o.judge s.messages) s)
    ((if final_answer_router s2 == "end" then Node.done else Node.planning, s2),
      if 2 ≤ s.num_feedback_requests then [] else [AgentEvent.modelCall Node.judge])
  | (Node.done, s) => ((Node.done, s), [])

/-- The initial state of a run: the submitted message history with the scalar
keys at their defaults (`num_feedback_requests` reads as 0 via
`state.get("num_feedback_requests", 0)`). -/
def initialState (msgs : List Message) : AgentState :=
  { requires_research := false
    num_feedback_requests := 0
    is_good_answer := false
    messages := msgs }

/-- The entry configuration of a run (`set_entry_point("decision_making")`). -/
def initialConfig (msgs : List Message) : Config :=
  (Node.decision_making, initialState msgs)

/-- Configurations reachable from a given configuration by stepping the
compiled graph. -/
inductive Reachable (o : Oracle) (init : Config) : Config → Prop where
  | refl : Reachable o init init
  | step {c : Config} : Reachable o init c → Reachable o init (stepConfig o c).1

/-- An HTTP response as seen by `CoreAPIWrapper._get_search_response`: a
status code and the response body (`response.json()` is kept abstract as the
body string, since only the status drives control flow). -/
structure HttpResponse where
  status : Nat
  data : String
deriving DecidableEq, Repr

/-- The `max_retries = 5` bound of `CoreAPIWrapper._get_search_response`. -/
def maxRetries : Nat := 5

/-- The 2xx success test `200 <= response.status < 300`. -/
def twoXX (r : HttpResponse) : Bool :=
  200 ≤ r.status && r.status < 300

/-- The exception text raised after the retries are exhausted:
`f"Got non 2xx response from CORE API: {response.status} {response.data}"`. -/
def coreErrorMessage (r : HttpResponse) : String :=
  "Got non 2xx response from CORE API: " ++ toString r.status ++ " " ++ r.data

/-- The body of the `for attempt in range(max_retries)` loop of
`CoreAPIWrapper._get_search_response`.  `http attempt` is the upstream
response to the request issued on that attempt.  The returned list records
the `time.sleep(2 ** (attempt + 2))` back-off delays, in order; the `Except`
is the returned body or the raised exception's text.  The `[]` case
corresponds to the loop running out, which cannot happen since the last
attempt either returns or raises. -/
def getSearchGo (http : Nat → HttpResponse) : List Nat → List Nat × Except String String
  | [] => ([], Except.error "")
  | attempt :: rest =>
    let resp := http attempt
    if twoXX resp then ([], Except.ok resp.data)
    else if attempt < maxRetries - 1 then
      let r := getSearchGo http rest
      (2 ^ (attempt + 2) :: r.1, r.2)
    else ([], Except.error (coreErrorMessage resp))

/-- `CoreAPIWrapper._get_search_response`: retry loop over
`range(max_retries)` with exponential back-off between failed attempts. -/
def get_search_response (http : Nat → HttpResponse) : List Nat × Except String String :=
  getSearchGo http (List.range maxRetries)

/-- Modelled from the spec: the paper-search capability wrapper (the file
`src/agent/tools.py` defining `search_papers` is absent from the sources;
only its import and registration in `ResearchAgent.__init__` are present).
Per the error-handling design, a capability invocation failure is retried by
the capability itself and, after exhausting retries, surfaced as a failed
result string rather than a propagated exception.  On success the capability
returns the formatted results of `CoreAPIWrapper.search`, abstracted here as
the response body. -/
def search_papers (http : Nat → HttpResponse) (query : String) : String :=
  match (get_search_response http).2 with
  | Except.ok body => body
  | Except.error e => "Error performing paper search: " ++ e

/-- A decision response declining research without an answer text. -/
def oracleNoAnswer : Oracle :=
  { decide := fun _ => { requires_research := false, answer := none }
    plan := fun _ => Message.ai "plan" []
    act := fun _ => ("act", [])
    judge := fun _ => { is_good_answer := true, feedback := none }
    invoke := fun n _ => n }

/-- A decision response declining research with a direct answer. -/
def oracleAnswered : Oracle :=
  { decide := fun _ => { requires_research := false, answer := some "it is 4" }
    plan := fun _ => Message.ai "plan" []
    act := fun _ => ("act", [])
    judge := fun _ => { is_good_answer := true, feedback := none }
    invoke := fun n _ => n }

/-- A judge verdict rejecting the answer with an empty feedback string. -/
def oracleEmptyFeedback : Oracle :=
  { decide := fun _ => { requires_research := true, answer := none }
    plan := fun _ => Message.ai "plan" []
    act := fun _ => ("act", [])
    judge := fun _ => { is_good_answer := false, feedback := some "" }
    invoke := fun n _ => n }

/-- An oracle whose act step requests no tool calls and whose judge accepts. -/
def oracleDirect : Oracle :=
  { decide := fun _ => { requires_research := true, answer := some "working on it" }
    plan := fun _ => Message.ai "the plan" []
    act := fun _ => ("the answer", [])
    judge := fun _ => { is_good_answer := true, feedback := none }
    invoke := fun n _ => n }

/-- A run state holding one submitted question. -/
def stateQ : AgentState := initialState [Message.human "what is 2 plus 2"]

/-- A state that has already consumed the feedback budget. -/
def stateCapped : AgentState :=
  { requires_research := true
    num_feedback_requests := 2
    is_good_answer := false
    messages := [Message.human "what is 2 plus 2"] }

/-- The configuration reached after decision, planning and an act step that
requests no tool calls: the run stands at the judge. -/
def cfgJudge : Config :=
  (stepConfig oracleDirect (stepConfig oracleDirect (stepConfig oracleDirect
    (initialConfig [Message.human "q"])).1).1).1

/-- An upstream service failing every attempt with a 500. -/
def httpFail : Nat → HttpResponse := fun _ => { status := 500, data := "server error" }

/-- A state whose last `ai` message requests one paper search. -/
def sSearch : AgentState :=
  { requires_research := true
    num_feedback_requests := 0
    is_good_answer := false
    messages := [Message.human "find papers",
      Message.ai "searching" [{ id := "call-1", name := "search-papers", args := "q" }]] }

/-- Two concrete tool calls for the tool-stage witness. -/
def tcsW : List ToolCall :=
  [{ id := "id1", name := "search-papers", args := "a1" },
   { id := "id2", name := "download-paper", args := "a2" }]

/-- A concrete serialized-capability function. -/
def invokeW : String → String → String := fun n a => n ++ "/" ++ a

/-- A state whose last `ai` message carries the two witness tool calls. -/
def sW : AgentState :=
  { requires_research := true
    num_feedback_requests := 0
    is_good_answer := false
    messages := [Message.human "find papers", Message.ai "go" tcsW] }

end Researcher

namespace Researcher

/-!
The event-stream translator `ResearchAgent.message_generator`.

The translator consumes the graph's internal execution events and yields
serialized output records.  The helper functions it calls
(`langchain_to_chat_message`, `remove_tool_calls`,
`convert_message_content_to_string`) and `parse_input` are imported from
`utils/helpers.py`, where they are not defined in the sources; they are kept
as parameters of the translator (`conv`, `rtc`, `cms`) and the run
identifier produced by `parse_input` is a fixed parameter `runId`.
-/

/-- The caller's input to the `/stream` endpoint, as read by
`message_generator` (`user_input.message`, `user_input.stream_tokens`). -/
structure StreamInput where
  message : String
  stream_tokens : Bool
deriving DecidableEq, Repr

/-- The converted form of a message produced by `langchain_to_chat_message`:
a typed chat message with a type tag and content. -/
structure ChatMessage where
  type : String
  content : String
deriving DecidableEq, Repr

/-- An internal execution event observed by `message_generator`: its
`event["event"]` kind, `event["name"]`, tags, the messages carried in its
`data` payload (the state-update messages of a finished node, or the single
payload of a custom dispatch), and the chunk content of a token-stream
event. -/
structure RawEvent where
  event : String
  name : String
  tags : List String
  dataMessages : List Message
  chunkContent : String
deriving DecidableEq, Repr

/-- A serialized output record of the stream: the tagged union written as
`data: {...}` lines — `message` (a completed, converted message stamped with
the run identifier), `token` (an incremental text fragment), `info` (a named
lifecycle event), `error` (a failed conversion), and the final
`data: [DONE]` sentinel. -/
inductive OutRecord where
  | error (eventName : String)
  | message (eventName : String) (runId : String) (msg : ChatMessage)
  | token (eventName : String) (content : String)
  | info (eventName : String) (eventKind : String)
  | done
deriving DecidableEq, Repr

/-- Python `str.startswith`, evaluated over the character sequence. -/
def pyStartsWith (s pre : String) : Bool := pre.data.isPrefixOf s.data

/-- The messages a single event contributes (`new_messages`): the state
update of a finished graph node (`on_chain_end` carrying a `graph:step:`
tag), or the payload of a custom dispatch (`on_custom_event` carrying the
`custom_data_dispatch` tag); every other event contributes none. -/
def eventMessages (e : RawEvent) : List Message :=
  if e.event == "on_chain_end" && e.tags.any (fun t => pyStartsWith t "graph:step:") then
    e.dataMessages
  else if e.event == "on_custom_event" && e.tags.contains "custom_data_dispatch" then
    e.dataMessages
  else []

/-- The body of the `for message in new_messages` loop: convert the message
(`conv` stands for `langchain_to_chat_message`, returning `Except.error` where
the original raises); on failure yield an `error` record and continue; drop
the converted message when it is a `human` echo of the caller's input;
otherwise yield a `message` record stamped with the run identifier. -/
def processMessage (conv : Message → Except String ChatMessage)
    (runId inputMessage eventName : String) (m : Message) : List OutRecord :=
  match conv m with
  | Except.error _ => [OutRecord.error eventName]
  | Except.ok cm =>
    if cm.type == "human" && cm.content == inputMessage then []
    else [OutRecord.message eventName runId cm]

/-- The full message loop of one event, in order. -/
def processMessages (conv : Message → Except String ChatMessage)
    (runId inputMessage eventName : String) : List Message → List OutRecord
  | [] => []
  | m :: ms =>
    processMessage conv runId inputMessage eventName m ++
      processMessages conv runId inputMessage eventName ms

/-- The tail of one event's processing, after the message loop: a token
record for a model-stream chunk (when token streaming is on and the event is
not tagged `llama_guard`; empty cleaned content yields nothing, and the
branch skips the info record via `continue`), otherwise the unconditional
`info` record.  `rtc` stands for `remove_tool_calls` and `cms` for
`convert_message_content_to_string`. -/
def eventTail (rtc cms : String → String) (stream_tokens : Bool) (e : RawEvent) :
    List OutRecord :=
  if e.event == "on_chat_model_stream" && stream_tokens && !(e.tags.contains "llama_guard") then
    if rtc e.chunkContent == "" then [] else [OutRecord.token e.name (cms (rtc e.chunkContent))]
  else [OutRecord.info e.name e.event]

/-- Everything one event contributes to the stream, in order. -/
def processEvent (conv : Message → Except String ChatMessage) (rtc cms : String → String)
    (stream_tokens : Bool) (runId inputMessage : String) (e : RawEvent) : List OutRecord :=
  processMessages conv runId inputMessage e.name (eventMessages e) ++
    eventTail rtc cms stream_tokens e

/-- The translation of a whole event sequence, event by event. -/
def translateEvents (conv : Message → Except String ChatMessage) (rtc cms : String → String)
    (stream_tokens : Bool) (runId inputMessage : String) : List RawEvent → List OutRecord
  | [] => []
  | e :: es =>
    processEvent conv rtc cms stream_tokens runId inputMessage e ++
      translateEvents conv rtc cms stream_tokens runId inputMessage es

/-- `ResearchAgent.message_generator`: the ordered record sequence produced
for a caller input and the run's internal event sequence, closed by the
`data: [DONE]` sentinel. -/
def message_generator (conv : Message → Except String ChatMessage) (rtc cms : String → String)
    (u : StreamInput) (runId : String) (events : List RawEvent) : List OutRecord :=
  translateEvents conv rtc cms u.stream_tokens runId u.message events ++ [OutRecord.done]

/-- The translator as a yield-by-yield emission relation: `GenEmits ... es out`
holds when one run of the generator over the event sequence `es` emits
exactly the record sequence `out`. -/
inductive GenEmits (conv : Message → Except String ChatMessage) (rtc cms : String → String)
    (stream_tokens : Bool) (runId inputMessage : String) :
    List RawEvent → List OutRecord → Prop where
  | nil : GenEmits conv rtc cms stream_tokens runId inputMessage [] [OutRecord.done]
  | cons {e : RawEvent} {es : List RawEvent} {out : List OutRecord} :
      GenEmits conv rtc cms stream_tokens runId inputMessage es out →
      GenEmits conv rtc cms stream_tokens runId inputMessage (e :: es)
        (processEvent conv rtc cms stream_tokens runId inputMessage e ++ out)

/-- A concrete message conversion that succeeds on every message variant. -/
def conv0 : Message → Except String ChatMessage
  | Message.system c => Except.ok { type := "system", content := c }
  | Message.human c => Except.ok { type := "human", content := c }
  | Message.ai c _ => Except.ok { type := "ai", content := c }
  | Message.tool c _ _ => Except.ok { type := "tool", content := c }

/-- A conversion that fails on every message. -/
def convBad : Message → Except String ChatMessage := fun _ => Except.error "cannot convert"

/-- A node-finished event carrying one human message. -/
def eventW : RawEvent :=
  { event := "on_chain_end"
    name := "decision_making"
    tags := ["graph:step:1"]
    dataMessages := [Message.human "other text"]
    chunkContent := "" }

/-- A second node-finished event, carrying an `ai` message. -/
def eventW2 : RawEvent :=
  { event := "on_chain_end"
    name := "judge"
    tags := ["graph:step:5"]
    dataMessages := [Message.ai "verdict" []]
    chunkContent := "" }

/-- A concrete caller input for the stream witnesses. -/
def uW : StreamInput := { message := "my question", stream_tokens := true }

/-- Appending a message moves the tool-call lookup to the new last message. -/
theorem lastMessageToolCalls_snoc (ms : List Message) (m : Message) :
    lastMessageToolCalls (ms ++ [m]) = lastMessageToolCalls [m] := by
  simp [lastMessageToolCalls]

/-- Claim C3: for every Tool Stage execution in which no capability
invocation raises (capability invocation is embedded as the total function
`invoke`), the emitted tool messages have exactly one entry per ToolCall of
the triggering `ai` message, in the same order, the i-th carrying the
identifier and capability name of the i-th ToolCall. -/
theorem tools_node_matches_tool_calls (invoke : String → String → String)
    (s : AgentState) (content : String) (tcs : List ToolCall)
    (hlast : s.messages.getLast? = some (Message.ai content tcs)) :
    (tools_node invoke s).messages.length = tcs.length ∧
    ∀ i : Nat, ((tools_node invoke s).messages)[i]? =
      (tcs[i]?).map fun tc => Message.tool (invoke tc.name tc.args) tc.name tc.id := by
  have h : lastMessageToolCalls s.messages = tcs := by
    simp [lastMessageToolCalls, hlast]
  exact ⟨by simp [tools_node, h], fun i => by simp [tools_node, h]⟩

/-- The Tool Stage witness: two tool calls yield two tool messages with the
matching names and identifiers. -/
theorem tools_node_matches_tool_calls_witness :
    (tools_node invokeW sW).messages.length = 2 ∧
    ((tools_node invokeW sW).messages)[1]? =
      some (Message.tool "download-paper/a2" "download-paper" "id2") := by
  refine ⟨?_, ?_⟩
  · simpa [tcsW] using (tools_node_matches_tool_calls invokeW sW "go" tcsW rfl).1
  · simpa [tcsW, invokeW] using (tools_node_matches_tool_calls invokeW sW "go" tcsW rfl).2 1

/-- Claim C5: after an Act Stage completion the next stage is the Tool Stage
iff the latest `ai` message carries one or more ToolCall entries (otherwise
the Judge Stage), and every Tool Stage completion transfers control back to
the Act Stage. -/
theorem act_tool_routing (o : Oracle) (s s2 : AgentState) :
    ((stepConfig o (Node.agent, s)).1.1 = Node.tools ↔
      lastMessageToolCalls ((stepConfig o (Node.agent, s)).1.2).messages ≠ []) ∧
    ((stepConfig o (Node.agent, s)).1.1 = Node.tools ∨
      (stepConfig o (Node.agent, s)).1.1 = Node.judge) ∧
    (stepConfig o (Node.tools, s2)).1.1 = Node.agent := by
  refine ⟨?_, ?_, by simp [stepConfig]⟩ <;>
    cases htc : (o.act s.messages).2 <;>
      simp [stepConfig, agent_node, applyUpdate, should_continue,
        lastMessageToolCalls_snoc, lastMessageToolCalls, htc]

/-- Claim C4 counterexample: a decision-stage response with
`requires_research = false` and no answer terminates the run with zero — not
exactly one — appended `ai` messages. -/
theorem decision_silent_termination :
    (oracleNoAnswer.decide stateQ.messages).requires_research = false ∧
    (stepConfig oracleNoAnswer (Node.decision_making, stateQ)).1.1 = Node.done ∧
    (stepConfig oracleNoAnswer (Node.decision_making, stateQ)).1.2.messages.length =
      stateQ.messages.length :=
  ⟨rfl, rfl, rfl⟩

/-- Claim C4 (amended): for every run whose Decision Stage returns
`requires_research = false`, the run terminates immediately after the
Decision Stage, appending the decision's answer as one `ai` message when the
answer is truthy and nothing otherwise (so at most one message), with no
tool invocations; and the router's choice is a deterministic function of
`requires_research` alone. -/
theorem decision_no_research_terminates (o : Oracle) (s : AgentState)
    (h : (o.decide s.messages).requires_research = false) :
    (stepConfig o (Node.decision_making, s)).1.1 = Node.done ∧
    (stepConfig o (Node.decision_making, s)).1.2.messages =
      s.messages ++ (if pyTruthy (o.decide s.messages).answer then
        [Message.ai ((o.decide s.messages).answer.getD "") []] else []) ∧
    (stepConfig o (Node.decision_making, s)).1.2.messages.length ≤ s.messages.length + 1 ∧
    (stepConfig o (Node.decision_making, s)).2 = [AgentEvent.modelCall Node.decision_making] ∧
    ∀ s2 : AgentState, (stepConfig o (Node.decision_making, s2)).1.1 =
      (if (o.decide s2.messages).requires_research then Node.planning else Node.done) := by
  refine ⟨?_, ?_, ?_, rfl, ?_⟩
  · simp [stepConfig, decision_making_node, applyUpdate, router, h]
  · simp [stepConfig, decision_making_node, applyUpdate]
  · cases hp : pyTruthy (o.decide s.messages).answer <;>
      simp [stepConfig, decision_making_node, applyUpdate, hp]
  · intro s2
    cases hr : (o.decide s2.messages).requires_research <;>
      simp [stepConfig, decision_making_node, applyUpdate, router, hr]

/-- The decision-termination witness: a truthy decision answer is appended
as exactly one message and the run ends. -/
theorem decision_no_research_terminates_witness :
    (stepConfig oracleAnswered (Node.decision_making, stateQ)).1.1 = Node.done ∧
    (stepConfig oracleAnswered (Node.decision_making, stateQ)).1.2.messages.length ≤
      stateQ.messages.length + 1 ∧
    (stepConfig oracleAnswered (Node.decision_making, stateQ)).2 =
      [AgentEvent.modelCall Node.decision_making] := by
  refine ⟨(decision_no_research_terminates oracleAnswered stateQ rfl).1,
    (decision_no_research_terminates oracleAnswered stateQ rfl).2.2.1,
    (decision_no_research_terminates oracleAnswered stateQ rfl).2.2.2.1⟩

/-- Claim C6 counterexample: a judge verdict whose feedback is present but
empty (`feedback = ""`) is not appended to the history, because the source
guards the append with Python truthiness (`if response.feedback:`). -/
theorem judge_empty_feedback_not_appended :
    (oracleEmptyFeedback.judge stateQ.messages).feedback.isSome = true ∧
    stateQ.num_feedback_requests < 2 ∧
    (stepConfig oracleEmptyFeedback (Node.judge, stateQ)).1.2.messages = stateQ.messages :=
  ⟨rfl, by decide, rfl⟩

/-- Claim C6 (amended): for every Judge Stage entry with
`num_feedback_requests < 2`, the stage invokes the model, increments
`num_feedback_requests` by exactly 1 regardless of the verdict, and appends
the verdict's feedback as an `ai` message when the feedback is present and
non-empty; if the evaluation returns `is_good_answer = true` the run
terminates, so a first-evaluation acceptance ends the run with
`num_feedback_requests = 1`. -/
theorem judge_below_cap_behavior (o : Oracle) (s : AgentState)
    (h : s.num_feedback_requests < 2) :
    (stepConfig o (Node.judge, s)).2 = [AgentEvent.modelCall Node.judge] ∧
    (stepConfig o (Node.judge, s)).1.2.num_feedback_requests = s.num_feedback_requests + 1 ∧
    (stepConfig o (Node.judge, s)).1.2.messages =
      s.messages ++ (if pyTruthy (o.judge s.messages).feedback then
        [Message.ai ((o.judge s.messages).feedback.getD "") []] else []) ∧
    ((o.judge s.messages).is_good_answer = true →
      (stepConfig o (Node.judge, s)).1.1 = Node.done) := by
  have h2 : ¬ 2 ≤ s.num_feedback_requests := by omega
  refine ⟨by simp [stepConfig, h2], ?_, ?_, ?_⟩
  · simp [stepConfig, judge_node, applyUpdate, h2]
  · simp [stepConfig, judge_node, applyUpdate, h2]
  · intro hg
    simp [stepConfig, judge_node, applyUpdate, final_answer_router, h2, hg]

/-- The judge witness: a first-evaluation acceptance ends the run with the
counter at 1 after one model call. -/
theorem judge_below_cap_behavior_witness :
    (stepConfig oracleDirect (Node.judge, stateQ)).2 = [AgentEvent.modelCall Node.judge] ∧
    (stepConfig oracleDirect (Node.judge, stateQ)).1.2.num_feedback_requests = 1 ∧
    (stepConfig oracleDirect (Node.judge, stateQ)).1.1 = Node.done := by
  refine ⟨(judge_below_cap_behavior oracleDirect stateQ (by decide)).1,
    (judge_below_cap_behavior oracleDirect stateQ (by decide)).2.1,
    (judge_below_cap_behavior oracleDirect stateQ (by decide)).2.2.2 rfl⟩

/-- Claim C10: a Judge Stage entry with `num_feedback_requests >= 2` returns
an update that sets only `is_good_answer`: the counter is not incremented and
no feedback message is appended. -/
theorem judge_forced_accept_frame (o : Oracle) (s : AgentState)
    (h : 2 ≤ s.num_feedback_requests) :
    judge_node (o.judge s.messages) s =
      { requires_research := none
        num_feedback_requests := none
        is_good_answer := some true
        messages := [] } ∧
    (stepConfig o (Node.judge, s)).1.2.num_feedback_requests = s.num_feedback_requests ∧
    (stepConfig o (Node.judge, s)).1.2.messages = s.messages ∧
    (stepConfig o (Node.judge, s)).1.2.is_good_answer = true := by
  refine ⟨by simp [judge_node, h], ?_, ?_, ?_⟩ <;>
    simp [stepConfig, judge_node, applyUpdate, h]

/-- The forced-acceptance frame witness at the capped state. -/
theorem judge_forced_accept_frame_witness :
    judge_node (oracleDirect.judge stateCapped.messages) stateCapped =
      { requires_research := none
        num_feedback_requests := none
        is_good_answer := some true
        messages := [] } ∧
    (stepConfig oracleDirect (Node.judge, stateCapped)).1.2.num_feedback_requests = 2 ∧
    (stepConfig oracleDirect (Node.judge, stateCapped)).1.2.messages =
      stateCapped.messages := by
  refine ⟨(judge_forced_accept_frame oracleDirect stateCapped (by decide)).1,
    (judge_forced_accept_frame oracleDirect stateCapped (by decide)).2.1,
    (judge_forced_accept_frame oracleDirect stateCapped (by decide)).2.2.1⟩

/-- One graph step never pushes the feedback counter above 2. -/
theorem step_feedback_le (o : Oracle) (c : Config)
    (h : c.2.num_feedback_requests ≤ 2) :
    ((stepConfig o c).1).2.num_feedback_requests ≤ 2 := by
  obtain ⟨n, s⟩ := c
  cases n with
  | decision_making => simpa [stepConfig, applyUpdate, decision_making_node] using h
  | planning => simpa [stepConfig, applyUpdate, planning_node] using h
  | tools => simpa [stepConfig, applyUpdate, tools_node] using h
  | agent => simpa [stepConfig, applyUpdate, agent_node] using h
  | judge =>
    by_cases h2 : 2 ≤ s.num_feedback_requests
    · simpa [stepConfig, applyUpdate, judge_node, h2] using h
    · simp [stepConfig, applyUpdate, judge_node, h2] at h ⊢
      omega
  | done => simpa [stepConfig] using h

/-- The feedback counter never exceeds 2 in any reachable configuration. -/
theorem reachable_feedback_le (o : Oracle) (msgs : List Message) (c : Config)
    (h : Reachable o (initialConfig msgs) c) : c.2.num_feedback_requests ≤ 2 := by
  induction h with
  | refl => simp [initialConfig, initialState]
  | step _ ih => exact step_feedback_le o _ ih

/-- Claim C1: in every reachable configuration of a run,
`num_feedback_requests` is at most 2 on entry to the Judge Stage, and a
Judge Stage entered with `num_feedback_requests >= 2` sets `is_good_answer`
to true without invoking the model, terminating the run. -/
theorem judge_entry_cap (o : Oracle) (msgs : List Message) (c : Config)
    (h : Reachable o (initialConfig msgs) c) :
    (c.1 = Node.judge → c.2.num_feedback_requests ≤ 2) ∧
    ∀ s : AgentState, 2 ≤ s.num_feedback_requests →
      (stepConfig o (Node.judge, s)).1.1 = Node.done ∧
      (stepConfig o (Node.judge, s)).1.2.is_good_answer = true ∧
      (stepConfig o (Node.judge, s)).2 = [] := by
  refine ⟨fun _ => reachable_feedback_le o msgs c h, fun s hs => ?_⟩
  refine ⟨?_, ?_, by simp [stepConfig, hs]⟩ <;>
    simp [stepConfig, judge_node, applyUpdate, final_answer_router, hs]

/-- The judge configuration after decision, planning and a call-free act
step is reachable. -/
theorem reach_cfgJudge :
    Reachable oracleDirect (initialConfig [Message.human "q"]) cfgJudge :=
  Reachable.step (Reachable.step (Reachable.step Reachable.refl))

/-- The judge-cap witness: the concrete reachable judge configuration obeys
the cap, and a capped judge entry accepts silently with no external effect. -/
theorem judge_entry_cap_witness :
    cfgJudge.2.num_feedback_requests ≤ 2 ∧
    (stepConfig oracleDirect (Node.judge, stateCapped)).1.1 = Node.done ∧
    (stepConfig oracleDirect (Node.judge, stateCapped)).2 = [] := by
  refine ⟨(judge_entry_cap oracleDirect [Message.human "q"] cfgJudge reach_cfgJudge).1 rfl,
    ((judge_entry_cap oracleDirect [Message.human "q"] cfgJudge reach_cfgJudge).2
      stateCapped (by decide)).1,
    ((judge_entry_cap oracleDirect [Message.human "q"] cfgJudge reach_cfgJudge).2
      stateCapped (by decide)).2.2⟩

/-- The retry loop over the full attempt range sleeps at most
`maxRetries - 1` times: the last attempt returns or raises without a
back-off. -/
theorem getSearchGo_range_delays_le (http : Nat → HttpResponse) :
    (getSearchGo http (List.range maxRetries)).1.length ≤ maxRetries - 1 := by
  have hr : List.range maxRetries = [0, 1, 2, 3, 4] := rfl
  rw [hr]
  by_cases h0 : twoXX (http 0) <;> by_cases h1 : twoXX (http 1) <;>
    by_cases h2 : twoXX (http 2) <;> by_cases h3 : twoXX (http 3) <;>
      by_cases h4 : twoXX (http 4) <;>
        simp [getSearchGo, h0, h1, h2, h3, h4, maxRetries]

/-- Claim C2: a transient capability failure is retried by the capability
itself with exponential back-off and a bounded attempt count (at most
`maxRetries` requests; on total failure the recorded delays are 4, 8, 16, 32
seconds), and once the retries are exhausted the Tool Stage records a `tool`
message whose content communicates the failure — the embedding is total, so
no exception propagates and the run continues. -/
theorem search_failure_retried_and_contained (http : Nat → HttpResponse)
    (hfail : ∀ i, i < maxRetries → twoXX (http i) = false)
    (s : AgentState) (content cid args2 : String)
    (hlast : s.messages.getLast? =
      some (Message.ai content [{ id := cid, name := "search-papers", args := args2 }])) :
    (get_search_response http).1 = [4, 8, 16, 32] ∧
    (get_search_response http).2 = Except.error (coreErrorMessage (http 4)) ∧
    (∀ h2 : Nat → HttpResponse, (get_search_response h2).1.length + 1 ≤ maxRetries) ∧
    (tools_node (fun _ a => search_papers http a) s).messages =
      [Message.tool ("Error performing paper search: " ++ coreErrorMessage (http 4))
        "search-papers" cid] := by
  have hr : List.range maxRetries = [0, 1, 2, 3, 4] := rfl
  have hres : get_search_response http =
      ([4, 8, 16, 32], Except.error (coreErrorMessage (http 4))) := by
    simp [get_search_response, hr, getSearchGo, hfail 0 (by decide), hfail 1 (by decide),
      hfail 2 (by decide), hfail 3 (by decide), hfail 4 (by decide), maxRetries]
  refine ⟨by simp [hres], by simp [hres], ?_, ?_⟩
  · intro h2
    have hb := getSearchGo_range_delays_le h2
    simp [get_search_response, maxRetries] at hb ⊢
    omega
  · have hl : lastMessageToolCalls s.messages =
        [{ id := cid, name := "search-papers", args := args2 }] := by
      simp [lastMessageToolCalls, hlast]
    simp [tools_node, hl, search_papers, hres]

/-- The failure-containment witness: against an always-500 upstream, the
loop sleeps 4, 8, 16 and 32 seconds and the tool stage records the failure
text as a tool message. -/
theorem search_failure_retried_and_contained_witness :
    (get_search_response httpFail).1 = [4, 8, 16, 32] ∧
    (tools_node (fun _ a => search_papers httpFail a) sSearch).messages =
      [Message.tool ("Error performing paper search: " ++ coreErrorMessage (httpFail 4))
        "search-papers" "call-1"] :=
  ⟨(search_failure_retried_and_contained httpFail (fun _ _ => rfl) sSearch
      "searching" "call-1" "q" rfl).1,
   (search_failure_retried_and_contained httpFail (fun _ _ => rfl) sSearch
      "searching" "call-1" "q" rfl).2.2.2⟩

/-- A message record produced for one converted message is never a human
echo of the caller's input. -/
theorem processMessage_no_echo (conv : Message → Except String ChatMessage)
    (runId input en : String) (m : Message) (en2 rid : String) (cm : ChatMessage)
    (hmem : OutRecord.message en2 rid cm ∈ processMessage conv runId input en m)
    (hty : cm.type = "human") : cm.content ≠ input := by
  cases hconv : conv m with
  | error e => simp [processMessage, hconv] at hmem
  | ok cm0 =>
    simp only [processMessage, hconv] at hmem
    by_cases hcond : (cm0.type == "human" && cm0.content == input) = true
    · simp [hcond] at hmem
    · simp [hcond] at hmem
      obtain ⟨he2, hr2, hc2⟩ := hmem
      subst hc2
      intro hce
      exact hcond (by simp [hty, hce])

/-- The message loop of one event never emits a human echo. -/
theorem processMessages_no_echo (conv : Message → Except String ChatMessage)
    (runId input en : String) (ms : List Message) (en2 rid : String) (cm : ChatMessage)
    (hmem : OutRecord.message en2 rid cm ∈ processMessages conv runId input en ms)
    (hty : cm.type = "human") : cm.content ≠ input := by
  induction ms with
  | nil => simp [processMessages] at hmem
  | cons m t ih =>
    rw [processMessages, List.mem_append] at hmem
    cases hmem with
    | inl h => exact processMessage_no_echo conv runId input en m en2 rid cm h hty
    | inr h => exact ih h

/-- The token/info tail of an event emits no message records at all. -/
theorem eventTail_no_message (rtc cms : String → String) (st : Bool) (e : RawEvent)
    (en2 rid : String) (cm : ChatMessage) :
    OutRecord.message en2 rid cm ∉ eventTail rtc cms st e := by
  unfold eventTail
  by_cases h1 : (e.event == "on_chat_model_stream" && st && !(e.tags.contains "llama_guard")) = true
  · rw [if_pos h1]
    by_cases h2 : (rtc e.chunkContent == "") = true
    · rw [if_pos h2]; simp
    · rw [if_neg h2]; simp
  · rw [if_neg h1]; simp

/-- The full event translation never emits a human echo. -/
theorem translateEvents_no_echo (conv : Message → Except String ChatMessage)
    (rtc cms : String → String) (st : Bool) (runId input : String)
    (events : List RawEvent) (en2 rid : String) (cm : ChatMessage)
    (hmem : OutRecord.message en2 rid cm ∈ translateEvents conv rtc cms st runId input events)
    (hty : cm.type = "human") : cm.content ≠ input := by
  induction events with
  | nil => simp [translateEvents] at hmem
  | cons e t ih =>
    rw [translateEvents, processEvent, List.append_assoc, List.mem_append,
      List.mem_append] at hmem
    rcases hmem with h | h | h
    · exact processMessages_no_echo conv runId input e.name (eventMessages e) en2 rid cm h hty
    · exact absurd h (eventTail_no_message rtc cms st e en2 rid cm)
    · exact ih h

/-- Claim C7: a `human` message whose content is exactly the caller's
submitted input is never emitted as a `message`-type stream record by the
translator: the re-submitted initial human message is suppressed. -/
theorem echo_suppressed (conv : Message → Except String ChatMessage)
    (rtc cms : String → String) (u : StreamInput) (runId : String)
    (events : List RawEvent) (en2 rid : String) (cm : ChatMessage)
    (hmem : OutRecord.message en2 rid cm ∈ message_generator conv rtc cms u runId events)
    (hty : cm.type = "human") : cm.content ≠ u.message := by
  rw [message_generator, List.mem_append] at hmem
  cases hmem with
  | inl h =>
    exact translateEvents_no_echo conv rtc cms u.stream_tokens runId u.message events
      en2 rid cm h hty
  | inr h => simp at h

/-- The echo-suppression witness: the emitted human record's content is not
the caller's input. -/
theorem echo_suppressed_witness : ("other text" : String) ≠ "my question" :=
  echo_suppressed conv0 id id uW "run-1" [eventW] "decision_making" "run-1"
    { type := "human", content := "other text" } (by decide) rfl

/-- The message loop distributes over concatenation of message lists. -/
theorem processMessages_append (conv : Message → Except String ChatMessage)
    (runId input en : String) (xs ys : List Message) :
    processMessages conv runId input en (xs ++ ys) =
      processMessages conv runId input en xs ++ processMessages conv runId input en ys := by
  induction xs with
  | nil => simp [processMessages]
  | cons m t ih => simp [processMessages, ih]

/-- Claim C8: an event message whose conversion fails yields an `error`-type
output record in place, and the stream continues: the remaining messages of
the event, the event's own tail record, and all subsequent events are still
translated — a malformed payload never terminates the stream. -/
theorem malformed_message_contained (conv : Message → Except String ChatMessage)
    (rtc cms : String → String) (st : Bool) (runId input : String)
    (e : RawEvent) (es : List RawEvent) (m : Message) (err : String)
    (pre post : List Message)
    (hconv : conv m = Except.error err)
    (he : eventMessages e = pre ++ m :: post) :
    translateEvents conv rtc cms st runId input (e :: es) =
      processMessages conv runId input e.name pre ++
      OutRecord.error e.name ::
      (processMessages conv runId input e.name post ++
        (eventTail rtc cms st e ++ translateEvents conv rtc cms st runId input es)) := by
  simp [translateEvents, processEvent, he, processMessages_append, processMessages,
    processMessage, hconv, List.append_assoc]

/-- The containment witness: a failing conversion turns each carried message
into an error record while the info records and the following event still
appear. -/
theorem malformed_message_contained_witness :
    translateEvents convBad id id true "run-1" "my question" [eventW, eventW2] =
      [OutRecord.error "decision_making", OutRecord.info "decision_making" "on_chain_end",
        OutRecord.error "judge", OutRecord.info "judge" "on_chain_end"] := by
  rw [malformed_message_contained convBad id id true "run-1" "my question"
    eventW [eventW2] (Message.human "other text") "cannot convert" [] [] rfl (by decide)]
  decide

/-- Claim C9: the translator is deterministic — two emission runs over the
same event sequence (same conversion helpers, caller input and run
identifier) produce the identical ordered record sequence; there is no
hidden state beyond the event order. -/
theorem translator_deterministic (conv : Message → Except String ChatMessage)
    (rtc cms : String → String) (st : Bool) (runId input : String)
    (es : List RawEvent) (out1 out2 : List OutRecord)
    (h1 : GenEmits conv rtc cms st runId input es out1)
    (h2 : GenEmits conv rtc cms st runId input es out2) : out1 = out2 := by
  induction h1 generalizing out2 with
  | nil => cases h2; rfl
  | cons hp ih =>
    cases h2 with
    | cons hq => rw [ih _ hq]

/-- The functional translation is one emission run of the generator. -/
theorem genEmits_message_generator :
    GenEmits conv0 id id true "run-1" "my question" [eventW]
      (message_generator conv0 id id uW "run-1" [eventW]) := by
  have hmg : message_generator conv0 id id uW "run-1" [eventW] =
      processEvent conv0 id id true "run-1" "my question" eventW ++ [OutRecord.done] := by
    simp [message_generator, translateEvents, uW]
  rw [hmg]
  exact GenEmits.cons GenEmits.nil

/-- The determinism witness: a direct emission run and the functional
translation of the same single-event sequence coincide. -/
theorem translator_deterministic_witness :
    processEvent conv0 id id true "run-1" "my question" eventW ++ [OutRecord.done] =
      message_generator conv0 id id uW "run-1" [eventW] :=
  translator_deterministic conv0 id id true "run-1" "my question" [eventW] _ _
    (GenEmits.cons GenEmits.nil) genEmits_message_generator

end Researcher
